import Mathlib

/-!
Verification development for the phishyfs file-threat scanner
(src/scanmanager.py, src/phfs.py).

The scanner resolves a file path to a file-type descriptor by extension
(case-insensitively), derives a danger tier from the descriptor's base threat
score, and emits one record per scanned path.  Python exceptions (IndexError
on `ext[0]` for an empty extension, AttributeError on `None.threat_base`,
OSError on file access) are modelled with `Except PyError`.  File contents are
modelled as lists of byte values; the ambient filesystem as a partial map from
paths to contents.
-/

/-- Python exceptions that the scanner's code paths can raise. -/
inductive PyError where
  | indexError
  | attributeError
  | osError
  deriving DecidableEq, Repr

/-- `pyRfindAux c s i acc` scans `s` whose head sits at index `i`, remembering
in `acc` the index of the last occurrence of `c` seen so far. -/
def pyRfindAux (c : Char) : List Char → Nat → Int → Int
  | [], _, acc => acc
  | x :: xs, i, acc => pyRfindAux c xs (i + 1) (if x = c then (i : Int) else acc)

/-- Python `str.rfind`: index of the last occurrence of `c`, or `-1`. -/
def pyRfind (c : Char) (s : List Char) : Int :=
  pyRfindAux c s 0 (-1)

/-- POSIX `os.path.splitext` (CPython `genericpath._splitext` with `sep='/'`,
no `altsep`, `extsep='.'`): split at the last dot that lies after the last
slash, unless every character between the last slash and that dot is itself a
dot (leading-dot filenames have no extension). -/
def splitext (p : String) : String × String :=
  let chars := p.data
  let sepIndex := pyRfind '/' chars
  let dotIndex := pyRfind '.' chars
  if sepIndex < dotIndex then
    let stem := (chars.take dotIndex.toNat).drop (sepIndex + 1).toNat
    if stem.any (fun ch => ch ≠ '.') then
      (String.mk (chars.take dotIndex.toNat), String.mk (chars.drop dotIndex.toNat))
    else (p, "")
  else (p, "")

/-- Case folding of one character.  Python `str.casefold` restricted to the
ASCII range, which covers every extension the registry stores. -/
def foldChar (c : Char) : Char :=
  if 'A' ≤ c ∧ c ≤ 'Z' then Char.ofNat (c.toNat + 32) else c

/-- Python `str.casefold` on a whole string (ASCII-range model). -/
def pyCasefold (s : String) : String :=
  String.mk (s.data.map foldChar)

/-- Is `b` a UTF-8 continuation byte (`0x80..0xBF`)? -/
def isCont (b : Nat) : Bool :=
  0x80 ≤ b && b ≤ 0xBF

/-- Strict UTF-8 validity of a byte sequence, as Python `bytes.decode()`
checks it: RFC 3629 sequences only — no overlong forms, no surrogates
(`ED A0..BF`), nothing above `U+10FFFF`. -/
def utf8Valid : List Nat → Bool
  | [] => true
  | b :: rest =>
    if b < 0x80 then utf8Valid rest
    else if b < 0xC2 then false
    else if b < 0xE0 then
      match rest with
      | b1 :: r => isCont b1 && utf8Valid r
      | [] => false
    else if b = 0xE0 then
      match rest with
      | b1 :: b2 :: r => (0xA0 ≤ b1 && b1 ≤ 0xBF) && isCont b2 && utf8Valid r
      | _ => false
    else if b = 0xED then
      match rest with
      | b1 :: b2 :: r => (0x80 ≤ b1 && b1 ≤ 0x9F) && isCont b2 && utf8Valid r
      | _ => false
    else if b < 0xF0 then
      match rest with
      | b1 :: b2 :: r => isCont b1 && isCont b2 && utf8Valid r
      | _ => false
    else if b = 0xF0 then
      match rest with
      | b1 :: b2 :: b3 :: r => (0x90 ≤ b1 && b1 ≤ 0xBF) && isCont b2 && isCont b3 && utf8Valid r
      | _ => false
    else if b < 0xF4 then
      match rest with
      | b1 :: b2 :: b3 :: r => isCont b1 && isCont b2 && isCont b3 && utf8Valid r
      | _ => false
    else if b = 0xF4 then
      match rest with
      | b1 :: b2 :: b3 :: r => (0x80 ≤ b1 && b1 ≤ 0x8F) && isCont b2 && isCont b3 && utf8Valid r
      | _ => false
    else false

/-- The ambient filesystem: a path maps to the file's bytes, or to `none`
when the file does not exist or cannot be read. -/
def FileSystem : Type := String → Option (List Nat)

/-- A file-type descriptor (`class FileType` and its subclasses).  Field
defaults mirror `FileType.__init__` and the base `generate_preview`; a
subclass that does not override a member inherits the default. -/
structure FileType where
  name : String := ""
  extensions : List String := []
  threat_base : Int := 0
  attributes : List String := []
  platform : String := ""
  generate_preview : String → String × String := fun _ => ("unimplemented", "")

/-- `PlainTextType`: plain text files. -/
def PlainTextType : FileType :=
  { name := "Plain text"
    extensions := ["adoc", "config", "ini", "md", "txt"] }

/-- `ScriptType`: scripting languages. -/
def ScriptType : FileType :=
  { name := "Programming script"
    extensions := ["c", "cpp", "css", "h", "hpp", "js", "php", "ps1", "py", "rb", "rs", "sh"]
    attributes := ["script"]
    threat_base := 1 }

/-- `JPEGType`: JPEG photos; overrides `generate_preview` to return the
original path with no error. -/
def JPEGType : FileType :=
  { name := "JPEG Photo"
    extensions := ["jpg", "jpeg"]
    attributes := ["hidden-info"]
    threat_base := 1
    generate_preview := fun filepath => ("", filepath) }

/-- `PDFType`: PDF documents. -/
def PDFType : FileType :=
  { name := "Adobe PDF Document"
    extensions := ["pdf"]
    attributes := ["macros", "hidden-info"]
    threat_base := 3 }

/-- `WordType`: Microsoft Word documents. -/
def WordType : FileType :=
  { name := "Microsoft Word Document"
    extensions := ["doc", "docx"]
    attributes := ["macros", "hidden-info"]
    threat_base := 3 }

/-- `PlainTextType.check_format`: read the file's bytes and try to decode
them; a missing/unreadable file propagates OSError, undecodable bytes give
the diagnostic string. -/
def PlainTextType_check_format (fs : FileSystem) (filepath : String) : Except PyError String :=
  match fs filepath with
  | none => Except.error PyError.osError
  | some rawdata =>
    Except.ok (if utf8Valid rawdata then "" else "File contains unrecognized characters")

/-- `ScriptType.check_format`: textually identical to
`PlainTextType.check_format` in the source. -/
def ScriptType_check_format (fs : FileSystem) (filepath : String) : Except PyError String :=
  match fs filepath with
  | none => Except.error PyError.osError
  | some rawdata =>
    Except.ok (if utf8Valid rawdata then "" else "File contains unrecognized characters")

/-- Outcome of `PIL.Image.open` on a file, abstracted: either the image opens
and reports a detected format string, or an `OSError` is raised
(corrupted/unreadable image). -/
inductive ImageOpenResult where
  | opened (format : String)
  | oserror
  deriving DecidableEq, Repr

/-- `JPEGType.check_format`, with the PIL interaction abstracted as the
`Image.open` outcome: a non-JPEG detected format is rejected, an `OSError`
reports corruption, otherwise the check passes. -/
def JPEGType_check_format (r : ImageOpenResult) : String :=
  match r with
  | ImageOpenResult.opened fmt => if fmt ≠ "JPEG" then "File is not a JPEG photo" else ""
  | ImageOpenResult.oserror => "Corrupted file contents"

/-- The record `ScanManager.scan` returns (a Python dict; `supported` and
`description` are present only when a descriptor was found). -/
structure ScanRecord where
  name : String
  supported : Option Bool
  description : Option String
  danger : String
  deriving DecidableEq, Repr

namespace ScanManager

/-- The registry built by `ScanManager._load_types`, in construction order. -/
def types : List FileType :=
  [PlainTextType, ScriptType, JPEGType, PDFType, WordType]

/-- `ScanManager.get_type`: case-fold the `splitext` extension; `ext[0]` on an
empty extension raises IndexError; strip the leading dot; return the first
registered descriptor whose extension list contains the result, else `None`. -/
def get_type (filepath : String) : Except PyError (Option FileType) :=
  match (pyCasefold (splitext filepath).2).data with
  | [] => Except.error PyError.indexError
  | c :: rest =>
    let ext := if c = '.' then rest else c :: rest
    Except.ok (types.find? (fun ftype => ftype.extensions.contains (String.mk ext)))

/-- The threat-tier banding at the end of `ScanManager.scan`. -/
def dangerLabel (threat_level : Int) : String :=
  if threat_level > 30 then "High"
  else if threat_level > 20 then "Moderate"
  else if threat_level > 10 then "Low"
  else if threat_level > 0 then "Minimal"
  else "None"

/-- `ScanManager.scan`: build the record; reading `threat_base` from a `None`
descriptor raises AttributeError, discarding the partial record. -/
def scan (filepath : String) : Except PyError ScanRecord :=
  match get_type filepath with
  | Except.error e => Except.error e
  | Except.ok none => Except.error PyError.attributeError
  | Except.ok (some ftype) =>
    Except.ok
      { name := filepath
        supported := some true
        description := some ftype.name
        danger := dangerLabel ftype.threat_base }

/-- `ScanManager.scan` with the ambient filesystem made explicit.  The body of
`scan` (extension handling in `get_type` and the threat banding) performs no
file access, so the state is never consulted. -/
def scanFS (fs : FileSystem) (filepath : String) : Except PyError ScanRecord :=
  scan filepath

end ScanManager

/-- The scanning loop of `ScanFilesJSON` in src/phfs.py: append one record per
path; an exception raised by `scan` aborts the loop (and the whole batch). -/
def ScanFilesJSON (pathlist : List String) : Except PyError (List ScanRecord) :=
  match pathlist with
  | [] => Except.ok []
  | p :: rest =>
    match ScanManager.scan p with
    | Except.error e => Except.error e
    | Except.ok r =>
      match ScanFilesJSON rest with
      | Except.error e => Except.error e
      | Except.ok rs => Except.ok (r :: rs)

/-- Appending a string to "." conses a dot onto its character data. -/
theorem data_dot_append (v : String) : ("." ++ v).data = '.' :: v.data := by
  cases v with
  | mk d => rfl

/-- Case-folding a dot-led extension folds the part after the dot. -/
theorem pyCasefold_dot (v : String) :
    (pyCasefold ("." ++ v)).data = '.' :: (pyCasefold v).data := by
  have hfold : foldChar '.' = '.' := by decide
  simp [pyCasefold, data_dot_append, hfold]

/-- C1: for every integer `threat_base`, the danger tier used by
`ScanManager.scan` is assigned by fixed thresholds: 0 gives "None", 1–10
"Minimal", 11–20 "Low", 21–30 "Moderate", 31 and above "High"; and a scan
that resolves a descriptor labels the record with exactly this tier of the
descriptor's `threat_base`. -/
theorem dangerLabel_thresholds (t : Int) :
    (t = 0 → ScanManager.dangerLabel t = "None") ∧
    (1 ≤ t → t ≤ 10 → ScanManager.dangerLabel t = "Minimal") ∧
    (11 ≤ t → t ≤ 20 → ScanManager.dangerLabel t = "Low") ∧
    (21 ≤ t → t ≤ 30 → ScanManager.dangerLabel t = "Moderate") ∧
    (31 ≤ t → ScanManager.dangerLabel t = "High") ∧
    (∀ p ftype, ScanManager.get_type p = Except.ok (some ftype) →
      ScanManager.scan p = Except.ok
        { name := p
          supported := some true
          description := some ftype.name
          danger := ScanManager.dangerLabel ftype.threat_base }) := by
  refine ⟨?_, ?_, ?_, ?_, ?_, ?_⟩
  · intro h
    subst h
    rfl
  · intro h1 h2
    unfold ScanManager.dangerLabel
    rw [if_neg (by omega), if_neg (by omega), if_neg (by omega), if_pos (by omega)]
  · intro h1 h2
    unfold ScanManager.dangerLabel
    rw [if_neg (by omega), if_neg (by omega), if_pos (by omega)]
  · intro h1 h2
    unfold ScanManager.dangerLabel
    rw [if_neg (by omega), if_pos (by omega)]
  · intro h1
    unfold ScanManager.dangerLabel
    rw [if_pos (by omega)]
  · intro p ftype h
    simp only [ScanManager.scan, h]

/-- C1 witness: the tier at each boundary value 0, 1, 10, 11, 20, 21, 30, 31. -/
theorem dangerLabel_thresholds_witness :
    ScanManager.dangerLabel 0 = "None" ∧ ScanManager.dangerLabel 1 = "Minimal" ∧
    ScanManager.dangerLabel 10 = "Minimal" ∧ ScanManager.dangerLabel 11 = "Low" ∧
    ScanManager.dangerLabel 20 = "Low" ∧ ScanManager.dangerLabel 21 = "Moderate" ∧
    ScanManager.dangerLabel 30 = "Moderate" ∧ ScanManager.dangerLabel 31 = "High" :=
  ⟨(dangerLabel_thresholds 0).1 rfl,
   (dangerLabel_thresholds 1).2.1 (by decide) (by decide),
   (dangerLabel_thresholds 10).2.1 (by decide) (by decide),
   (dangerLabel_thresholds 11).2.2.1 (by decide) (by decide),
   (dangerLabel_thresholds 20).2.2.1 (by decide) (by decide),
   (dangerLabel_thresholds 21).2.2.2.1 (by decide) (by decide),
   (dangerLabel_thresholds 30).2.2.2.1 (by decide) (by decide),
   (dangerLabel_thresholds 31).2.2.2.2.1 (by decide)⟩

/-- C2 counterexample: "README" has no extension (the extracted extension is
empty and is in no descriptor's set), yet `get_type` raises IndexError at
`ext[0]` instead of returning none. -/
theorem get_type_noext_counterexample :
    ScanManager.get_type "README" = Except.error PyError.indexError := rfl

/-- C2 (amended): when `splitext` extracts a nonempty extension `"." ++ v`
whose case-folded form is in no registered descriptor's extension set,
`get_type` returns none; when the extracted extension is empty (a dotless or
leading-dot-only filename), `get_type` raises IndexError instead. -/
theorem get_type_unmatched (p : String) :
    ((splitext p).2 = "" → ScanManager.get_type p = Except.error PyError.indexError) ∧
    (∀ v : String, (splitext p).2 = "." ++ v →
      (∀ ftype ∈ ScanManager.types, ftype.extensions.contains (pyCasefold v) = false) →
      ScanManager.get_type p = Except.ok none) := by
  constructor
  · intro h
    unfold ScanManager.get_type
    rw [h]
    rfl
  · intro v hv hnone
    unfold ScanManager.get_type
    rw [hv, pyCasefold_dot]
    show Except.ok (ScanManager.types.find?
      (fun ftype => ftype.extensions.contains (pyCasefold v))) = Except.ok none
    rw [List.find?_eq_none.mpr]
    intro ftype hmem hcontra
    exact Bool.false_ne_true ((hnone ftype hmem).symm.trans hcontra)

/-- C2 witness: an unmatched nonempty extension resolves to none, and a
dotless path raises IndexError. -/
theorem get_type_unmatched_witness :
    ScanManager.get_type "a.xyz" = Except.ok none ∧
    ScanManager.get_type "NOEXT" = Except.error PyError.indexError :=
  ⟨(get_type_unmatched "a.xyz").2 "xyz" rfl (by decide),
   (get_type_unmatched "NOEXT").1 rfl⟩

/-- C3: when resolution yields no descriptor, `scan` raises AttributeError at
the `threat_base` read; and every successful scan record comes from a resolved
descriptor, whose `threat_base` alone determined the danger tier — no default
score is ever substituted. -/
theorem scan_faults_without_descriptor (p : String) :
    (ScanManager.get_type p = Except.ok none →
      ScanManager.scan p = Except.error PyError.attributeError) ∧
    (∀ r, ScanManager.scan p = Except.ok r →
      ∃ ftype, ScanManager.get_type p = Except.ok (some ftype) ∧
        r.danger = ScanManager.dangerLabel ftype.threat_base) := by
  constructor
  · intro h
    simp only [ScanManager.scan, h]
  · intro r hr
    cases hg : ScanManager.get_type p with
    | error e => simp [ScanManager.scan, hg] at hr
    | ok o =>
      cases o with
      | none => simp [ScanManager.scan, hg] at hr
      | some ftype =>
        simp only [ScanManager.scan, hg, Except.ok.injEq] at hr
        exact ⟨ftype, rfl, by rw [← hr]⟩

/-- C3 witness: a path with an unrecognized extension makes `scan` raise
AttributeError. -/
theorem scan_faults_without_descriptor_witness :
    ScanManager.scan "file.xyz" = Except.error PyError.attributeError :=
  (scan_faults_without_descriptor "file.xyz").1 rfl

/-- C4 counterexample: the batch ["a.txt", "README"] does not produce two
records — the IndexError raised while scanning "README" aborts the whole
batch with no output. -/
theorem ScanFilesJSON_abort_counterexample :
    ScanFilesJSON ["a.txt", "README"] = Except.error PyError.indexError := rfl

/-- C4 (amended): when every path's individual scan succeeds, the batch
returns exactly one record per input path, in input order; a path whose scan
raises aborts the whole batch instead. -/
theorem ScanFilesJSON_all_ok (pathlist : List String)
    (h : ∀ p ∈ pathlist, ∃ r, ScanManager.scan p = Except.ok r) :
    ∃ records, ScanFilesJSON pathlist = Except.ok records ∧
      records.length = pathlist.length ∧
      List.Forall₂ (fun p r => ScanManager.scan p = Except.ok r) pathlist records := by
  induction pathlist with
  | nil => exact ⟨[], rfl, rfl, List.Forall₂.nil⟩
  | cons p rest ih =>
    obtain ⟨r, hr⟩ := h p (by simp)
    obtain ⟨rs, hrs, hlen, hfa⟩ := ih (fun q hq => h q (by simp [hq]))
    refine ⟨r :: rs, ?_, by simp [hlen], List.Forall₂.cons hr hfa⟩
    simp only [ScanFilesJSON, hr, hrs]

/-- C4 witness: a two-path batch where both scans succeed yields two records
in order. -/
theorem ScanFilesJSON_all_ok_witness :
    ∃ records, ScanFilesJSON ["a.txt", "b.pdf"] = Except.ok records ∧
      records.length = (["a.txt", "b.pdf"] : List String).length ∧
      List.Forall₂ (fun p r => ScanManager.scan p = Except.ok r)
        ["a.txt", "b.pdf"] records :=
  ScanFilesJSON_all_ok ["a.txt", "b.pdf"] (by
    intro p hp
    simp only [List.mem_cons, List.not_mem_nil, or_false] at hp
    rcases hp with h | h
    · subst h
      exact ⟨_, rfl⟩
    · subst h
      exact ⟨_, rfl⟩)

/-- C5 counterexample: scanning "file.pdf" yields danger "Minimal"
(threat_base 3 is in the 1–10 band), not "Moderate"; and the path ".pdf",
which also ends in ".pdf", makes `get_type` raise IndexError. -/
theorem scan_pdf_counterexample :
    ScanManager.scan "file.pdf" =
      Except.ok
        { name := "file.pdf"
          supported := some true
          description := some "Adobe PDF Document"
          danger := "Minimal" } ∧
    "Minimal" ≠ "Moderate" ∧
    ScanManager.get_type ".pdf" = Except.error PyError.indexError :=
  ⟨rfl, by decide, rfl⟩

/-- C5 (amended): every path whose `splitext` extension is ".pdf" (a ".pdf"
suffix preceded by a non-dot character in the filename) scans to description
"Adobe PDF Document" with danger "Minimal". -/
theorem scan_pdf_minimal (p : String) (hp : (splitext p).2 = ".pdf") :
    ScanManager.scan p = Except.ok
      { name := p
        supported := some true
        description := some "Adobe PDF Document"
        danger := "Minimal" } := by
  have hg : ScanManager.get_type p = Except.ok (some PDFType) := by
    unfold ScanManager.get_type
    rw [hp]
    rfl
  simp only [ScanManager.scan, hg]
  rfl

/-- C5 witness: the amended statement at the concrete path "b.pdf". -/
theorem scan_pdf_minimal_witness :
    ScanManager.scan "b.pdf" = Except.ok
      { name := "b.pdf"
        supported := some true
        description := some "Adobe PDF Document"
        danger := "Minimal" } :=
  scan_pdf_minimal "b.pdf" rfl

/-- C6 counterexample: "txt" is a registered extension of `PlainTextType` and
the filename ".txt" ends in a dot followed by "txt", yet `get_type` raises
IndexError on it (splitext treats a leading-dot filename as having no
extension) instead of returning the descriptor. -/
theorem get_type_dotfile_counterexample :
    "txt" ∈ PlainTextType.extensions ∧
    ScanManager.get_type ".txt" = Except.error PyError.indexError :=
  ⟨by decide, rfl⟩

/-- C6 (amended): for every registered extension `e` and every case variant
`v` of it, a path whose `splitext` extension is `"." ++ v` resolves to the
first descriptor in registry construction order whose extension set contains
`e`, and such a descriptor exists. -/
theorem get_type_case_insensitive (e v p : String)
    (he : ∃ ftype ∈ ScanManager.types, e ∈ ftype.extensions)
    (hv : pyCasefold v = e)
    (hp : (splitext p).2 = "." ++ v) :
    ScanManager.get_type p =
      Except.ok (ScanManager.types.find? (fun ftype => ftype.extensions.contains e)) ∧
    ∃ ftype, ScanManager.types.find? (fun ftype => ftype.extensions.contains e) = some ftype ∧
      e ∈ ftype.extensions := by
  constructor
  · unfold ScanManager.get_type
    rw [hp, pyCasefold_dot, hv]
    rfl
  · have hsome : (ScanManager.types.find? (fun ftype => ftype.extensions.contains e)).isSome := by
      rw [List.find?_isSome]
      obtain ⟨ftype, hmem, hin⟩ := he
      refine ⟨ftype, hmem, ?_⟩
      simpa [List.contains] using List.elem_iff.mpr hin
    obtain ⟨ftype, hft⟩ := Option.isSome_iff_exists.mp hsome
    refine ⟨ftype, hft, ?_⟩
    have hpred := List.find?_some hft
    simpa [List.contains, List.elem_iff] using hpred

/-- C6 witness: ".TXT" and ".txt" both resolve to the first descriptor
carrying "txt" (the plain-text descriptor). -/
theorem get_type_case_insensitive_witness :
    ScanManager.get_type "a.TXT" =
      Except.ok (ScanManager.types.find? (fun ftype => ftype.extensions.contains "txt")) ∧
    ∃ ftype, ScanManager.types.find? (fun ftype => ftype.extensions.contains "txt") = some ftype ∧
      "txt" ∈ ftype.extensions :=
  get_type_case_insensitive "txt" "TXT" "a.TXT"
    ⟨PlainTextType, List.mem_cons_self _ _, by decide⟩ rfl rfl

/-- C7: for every readable file, the plain-text format check returns the
empty diagnostic exactly when the file's bytes decode as valid UTF-8
(ASCII included) and "File contains unrecognized characters" otherwise; and
the script format check returns the same result as the plain-text one on
every filesystem and path. -/
theorem check_format_text (fs : FileSystem) (p : String) :
    (∀ rawdata, fs p = some rawdata →
      (utf8Valid rawdata = true → PlainTextType_check_format fs p = Except.ok "") ∧
      (utf8Valid rawdata = false →
        PlainTextType_check_format fs p =
          Except.ok "File contains unrecognized characters")) ∧
    ScriptType_check_format fs p = PlainTextType_check_format fs p := by
  constructor
  · intro rawdata hread
    constructor <;> intro hdec <;>
      simp [PlainTextType_check_format, hread, hdec]
  · rfl

/-- C7 witness: ASCII bytes pass, an invalid byte 0xFF fails, and the script
check agrees with the plain-text check on a concrete file. -/
theorem check_format_text_witness :
    PlainTextType_check_format (fun _ => some [104, 105]) "a.txt" = Except.ok "" ∧
    PlainTextType_check_format (fun _ => some [255]) "b.txt" =
      Except.ok "File contains unrecognized characters" ∧
    ScriptType_check_format (fun _ => some [255]) "b.py" =
      PlainTextType_check_format (fun _ => some [255]) "b.py" :=
  ⟨((check_format_text (fun _ => some [104, 105]) "a.txt").1 [104, 105] rfl).1 (by decide),
   ((check_format_text (fun _ => some [255]) "b.txt").1 [255] rfl).2 (by decide),
   (check_format_text (fun _ => some [255]) "b.py").2⟩

/-- C8: `JPEGType.check_format` returns the empty diagnostic when the file
opens as an image whose detected format is JPEG, "File is not a JPEG photo"
when it opens as an image of any other detected format, and "Corrupted file
contents" when opening raises OSError. -/
theorem JPEGType_check_format_cases (r : ImageOpenResult) :
    (r = ImageOpenResult.opened "JPEG" → JPEGType_check_format r = "") ∧
    (∀ fmt, fmt ≠ "JPEG" → r = ImageOpenResult.opened fmt →
      JPEGType_check_format r = "File is not a JPEG photo") ∧
    (r = ImageOpenResult.oserror → JPEGType_check_format r = "Corrupted file contents") := by
  refine ⟨?_, ?_, ?_⟩
  · intro h
    subst h
    rfl
  · intro fmt hne h
    subst h
    simp [JPEGType_check_format, hne]
  · intro h
    subst h
    rfl

/-- C8 witness: a detected JPEG passes, a detected PNG (a renamed PNG) is
rejected as not a JPEG, and an OSError reports corruption. -/
theorem JPEGType_check_format_witness :
    JPEGType_check_format (ImageOpenResult.opened "JPEG") = "" ∧
    JPEGType_check_format (ImageOpenResult.opened "PNG") = "File is not a JPEG photo" ∧
    JPEGType_check_format ImageOpenResult.oserror = "Corrupted file contents" :=
  ⟨(JPEGType_check_format_cases (ImageOpenResult.opened "JPEG")).1 rfl,
   (JPEGType_check_format_cases (ImageOpenResult.opened "PNG")).2.1 "PNG" (by decide) rfl,
   (JPEGType_check_format_cases ImageOpenResult.oserror).2.2 rfl⟩

/-- C9: for every path, the JPEG descriptor's preview is the original path
with no error, while the plain-text, script, PDF and Word descriptors all
return the inherited unimplemented signal with an empty preview path. -/
theorem generate_preview_spec (filepath : String) :
    JPEGType.generate_preview filepath = ("", filepath) ∧
    PlainTextType.generate_preview filepath = ("unimplemented", "") ∧
    ScriptType.generate_preview filepath = ("unimplemented", "") ∧
    PDFType.generate_preview filepath = ("unimplemented", "") ∧
    WordType.generate_preview filepath = ("unimplemented", "") :=
  ⟨rfl, rfl, rfl, rfl, rfl⟩

/-- C10: `ScanManager.scan` consults no filesystem state — its outcome is a
function of the path string alone, so two scans of equal paths agree under
any two filesystems; in particular a ".txt" path that exists in no
filesystem still scans to the plain-text record. -/
theorem scan_filesystem_independent (p : String) (fs1 fs2 : FileSystem) :
    ScanManager.scanFS fs1 p = ScanManager.scanFS fs2 p ∧
    ScanManager.scanFS fs1 "ghost.txt" = Except.ok
      { name := "ghost.txt"
        supported := some true
        description := some "Plain text"
        danger := "None" } :=
  ⟨rfl, rfl⟩
